import Mathlib

/-!
Verification development for the Firebase Test Lab trigger script
(`firebase-test-lab/trigger_ftl_tests.py`).

The Python source is shallowly embedded: every function the claims touch is
translated into an executable Lean definition over `String` or `List Char`.
External effects (the spawned `gcloud` process, `random.choice`, dynamic
loading of a validator module and the filesystem walk of an extracted zip)
are passed in explicitly as parameters, so the embedded functions are pure
and total while following the control flow of the source line by line.
Machine integers do not occur: the only numbers are the process return code
(an `Int`) and counters (`Nat`), none of which overflow in the source.
-/

/- ------------------------------------------------------------------ -/
/- Python string primitives used by the source.                        -/
/- ------------------------------------------------------------------ -/

/-- Characters removed by Python `str.strip()` with no argument
(ASCII whitespace; the filenames and table cells in play are ASCII). -/
def pyIsSpace (c : Char) : Bool :=
  c = ' ' ∨ c = '\t' ∨ c = '\n' ∨ c = '\r' ∨ c = '\x0b' ∨ c = '\x0c'

/-- Python `str.strip()` on a character list: drop whitespace from both ends. -/
def pyStripList (cs : List Char) : List Char :=
  ((cs.dropWhile pyIsSpace).reverse.dropWhile pyIsSpace).reverse

/-- Python `str.strip()`. -/
def pyStrip (s : String) : String :=
  String.mk (pyStripList s.toList)

/-- Occurrence of `needle` as a contiguous substring of `hay`
(Python `needle in hay` on strings). -/
def hasInfix (hay needle : List Char) : Bool :=
  match hay with
  | [] => needle.isPrefixOf ([] : List Char)
  | _ :: rest => needle.isPrefixOf hay || hasInfix rest needle

/-- Python `needle in hay` for strings. -/
def strContains (hay needle : String) : Bool :=
  hasInfix hay.toList needle.toList

/-- Python `s.split(sep)` for a one-character separator, accumulator form.
`acc` holds the current field reversed. -/
def splitOnCharAux (sep : Char) : List Char → List Char → List String
  | [], acc => [String.mk acc.reverse]
  | c :: cs, acc =>
    if c = sep then String.mk acc.reverse :: splitOnCharAux sep cs []
    else splitOnCharAux sep cs (c :: acc)

/-- Python `s.split(";")` as used on `FLAGS.test_devices` / `FLAGS.arg_groups`. -/
def splitSemi (s : String) : List String :=
  splitOnCharAux ';' s.toList []

/-- Python `s.split()` with no separator (used on `FLAGS.additional_flags`):
split on whitespace runs, discarding empty fields. -/
def pySplitWSAux : List Char → List Char → List String
  | [], [] => []
  | [], acc => [String.mk acc.reverse]
  | c :: cs, acc =>
    if pyIsSpace c then
      match acc with
      | [] => pySplitWSAux cs []
      | _ => String.mk acc.reverse :: pySplitWSAux cs []
    else pySplitWSAux cs (c :: acc)

/-- Python `s.split()` with no separator. -/
def pySplitWS (s : String) : List String :=
  pySplitWSAux s.toList []

/-- Python truthiness of an optional string flag:
`None` and the empty string are falsy. -/
def pyTruthy : Option String → Bool
  | none => false
  | some s => s ≠ ""

/-- Model of `os.path.join` for a directory with no trailing separator (POSIX). -/
def joinPath (d n : String) : String := d ++ "/" ++ n

/- ------------------------------------------------------------------ -/
/- Model of the regular expressions in `_parse_test_summary`.           -/
/- All of them are literal texts separated by lazy `(.*?)` groups and    -/
/- compiled with `re.DOTALL`, so `.` matches every character, a lazy     -/
/- group ends at the first later occurrence of the literal that follows  -/
/- it, and backtracking a lazy group further never helps (the following  -/
/- literal occurs after a later cut point only if it occurs after the    -/
/- first one).  The scan below implements exactly these semantics.       -/
/- ------------------------------------------------------------------ -/

/-- Lazy capture up to the literal `post`: returns the shortest prefix of the
input that is followed by `post`, together with the input remaining after
`post`; `none` when `post` does not occur. -/
def capTo (post : List Char) : List Char → Option (List Char × List Char)
  | [] => if post = [] then some ([], []) else none
  | c :: cs =>
    if post.isPrefixOf (c :: cs) then some ([], (c :: cs).drop post.length)
    else (capTo post cs).map (fun p => (c :: p.1, p.2))

/-- Model of `re.search` of `pre(.*?)post` under `re.DOTALL`: leftmost start where
`pre` matches and `post` occurs later; the group is the lazy capture. -/
def searchCapture (pre post : List Char) : List Char → Option (List Char)
  | [] =>
    if pre.isPrefixOf ([] : List Char) then (capTo post ([] : List Char)).map (fun p => p.1)
    else none
  | c :: cs =>
    if pre.isPrefixOf (c :: cs) then
      match capTo post ((c :: cs).drop pre.length) with
      | some p => some p.1
      | none => searchCapture pre post cs
    else searchCapture pre post cs

/-- Result of `re.search(pre + "(.*?)" + post, text).group(1)` as an `Option String`. -/
def reSearchGroup (pre post text : String) : Option String :=
  (searchCapture pre.toList post.toList text.toList).map String.mk

/-- One match attempt of `│(.*?)│(.*?)│(.*?)│` anchored at the head of the
input: three lazy cells between four box-drawing bars.  Returns the three
captures and the input remaining after the fourth bar. -/
def boxMatchAt (text : List Char) : Option ((List Char × List Char × List Char) × List Char) :=
  match text with
  | c :: cs =>
    if c = '│' then
      match capTo [ '│'] cs with
      | some (c1, r1) =>
        match capTo [ '│'] r1 with
        | some (c2, r2) =>
          match capTo [ '│'] r2 with
          | some (c3, r3) => some ((c1, c2, c3), r3)
          | none => none
        | none => none
      | none => none
    else none
  | [] => none

/-- Model of `re.findall(r"│(.*?)│(.*?)│(.*?)│", text, re.DOTALL)`: scan left to
right, emitting non-overlapping matches and resuming after each match.
`fuel` bounds the scan; every step consumes at least one character, so
`text.length` fuel is always enough. -/
def boxFindAux : Nat → List Char → List (List Char × List Char × List Char)
  | 0, _ => []
  | _ + 1, [] => []
  | fuel + 1, c :: cs =>
    match boxMatchAt (c :: cs) with
    | some (m, rest) => m :: boxFindAux fuel rest
    | none => boxFindAux fuel cs

/-- All matches of the box-drawing table row pattern. -/
def boxRows (text : String) : List (List Char × List Char × List Char) :=
  boxFindAux text.toList.length text.toList

/-- One match attempt of
`OUTCOME:(.*?)\nTEST_AXIS_VALUE:(.*?)\nTEST_DETAILS:` anchored at the head
of the input. -/
def kvMatchAt (text : List Char) : Option ((List Char × List Char) × List Char) :=
  if ("OUTCOME:".toList).isPrefixOf text then
    match capTo ("\nTEST_AXIS_VALUE:".toList) (text.drop ("OUTCOME:".toList).length) with
    | some (c1, r1) =>
      match capTo ("\nTEST_DETAILS:".toList) r1 with
      | some (c2, r2) => some ((c1, c2), r2)
      | none => none
    | none => none
  else none

/-- Model of `re.findall` for the key-value outcome pattern, with the same fuel
discipline as `boxFindAux`. -/
def kvFindAux : Nat → List Char → List (List Char × List Char)
  | 0, _ => []
  | _ + 1, [] => []
  | fuel + 1, c :: cs =>
    match kvMatchAt (c :: cs) with
    | some (m, rest) => m :: kvFindAux fuel rest
    | none => kvFindAux fuel cs

/-- All matches of the key-value outcome pattern. -/
def kvRows (text : String) : List (List Char × List Char) :=
  kvFindAux text.toList.length text.toList

/- ------------------------------------------------------------------ -/
/- Data model.                                                         -/
/- ------------------------------------------------------------------ -/

/-- One entry of the `devices` list of a test summary. -/
structure DeviceOutcome where
  device_axis : String
  outcome : String
deriving DecidableEq, Repr

/-- The per-attempt dictionary built by `_parse_test_summary`
(an InvocationResult of the spec). -/
structure TestSummary where
  attempt : Nat
  cmd : String
  return_code : Int
  testapp_path : String
  test_type : Option String
  ftl_link : String
  raw_result_link : String
  devices : List DeviceOutcome
deriving DecidableEq, Repr

/-- The aggregate dictionary `tests_result` (an AggregateReport). -/
structure TestsResult where
  project_id : Option String
  apps : List TestSummary
deriving DecidableEq, Repr

/-- The command-line flags of the script (`parse_cmdline_args`); optional
string flags default to `None`, `test_device_selection` defaults to `"all"`,
`timeout` to `"600s"` and `max_attempts` to `1`. -/
structure Flags where
  project_id : Option String
  arg_groups : Option String
  testapp_dir : Option String
  test_type : Option String
  test_devices : Option String
  test_device_selection : String
  timeout : String
  additional_flags : Option String
  max_attempts : Int
  validator : Option String
deriving DecidableEq, Repr

/-- Observable behaviour of one spawned external process: its exit code and
the text read from its combined stdout/stderr pipe. -/
structure ExecResult where
  returncode : Int
  stdout : String

/-- Outcome of `imp.load_source` on the validator path: a loaded module
whose `validate` function is `f`; a raised `ImportError` (the only
exception the source catches); or any other raised exception, carried by
name (for a missing file Python raises `FileNotFoundError`, which is not a
subclass of `ImportError`). -/
inductive LoadResult where
  | ok (f : TestSummary → Bool)
  | errImport
  | errOther (e : String)

/- ------------------------------------------------------------------ -/
/- Constants of the source (non-Windows branch of the platform check). -/
/- ------------------------------------------------------------------ -/

def GCLOUD : String := "gcloud"
def XCTEST : String := "xctest"
def ROBO : String := "robo"
def INSTRUMENTATION : String := "instrumentation"
def GAMELOOP : String := "game-loop"

def TEST_ANDROID_CMD : List String := [GCLOUD, "firebase", "test", "android", "run"]
def TEST_IOS_CMD : List String := [GCLOUD, "firebase", "test", "ios", "run"]
def BETA_TEST_IOS_CMD : List String := [GCLOUD, "beta", "firebase", "test", "ios", "run"]

/- ------------------------------------------------------------------ -/
/- `_parse_test_summary`.                                              -/
/- ------------------------------------------------------------------ -/

/-- Embedding of `_parse_test_summary(FLAGS, ftl_cmd, result, attempt_num)`.
`result.stdout.read()` is the `result_log` parameter and
`result.returncode` is `returncode`.  Fields are filled exactly as in the
source: each link defaults to the empty string when its marker is absent,
and the device list concatenates the box-table matches (header rows whose
first cell contains `OUTCOME` are skipped) with the key-value matches. -/
def _parse_test_summary (flags : Flags) (ftl_cmd : String) (returncode : Int)
    (attempt_num : Nat) (result_log : String) : TestSummary :=
  let testapp_path :=
    match reSearchGroup "Uploading [" "] to Firebase Test Lab" result_log with
    | some s => s
    | none => ""
  let ftl_link :=
    match reSearchGroup "Test results will be streamed to [" "]" result_log with
    | some s => s
    | none => ""
  let raw_result_link :=
    match reSearchGroup "Raw results will be stored in your GCS bucket at [" "]" result_log with
    | some s => s
    | none => ""
  let boxOutcomes :=
    (boxRows result_log).filterMap (fun od =>
      if hasInfix od.1 ("OUTCOME".toList) then none
      else some { device_axis := String.mk (pyStripList od.2.1),
                  outcome := String.mk (pyStripList od.1) : DeviceOutcome })
  let kvOutcomes :=
    (kvRows result_log).map (fun od =>
      { device_axis := String.mk (pyStripList od.2),
        outcome := String.mk (pyStripList od.1) : DeviceOutcome })
  { attempt := attempt_num
    cmd := ftl_cmd
    return_code := returncode
    testapp_path := testapp_path
    test_type := flags.test_type
    ftl_link := ftl_link
    raw_result_link := raw_result_link
    devices := boxOutcomes ++ kvOutcomes }

/- ------------------------------------------------------------------ -/
/- `_exit_code`.                                                       -/
/- ------------------------------------------------------------------ -/

/-- The `for` loop of `_exit_code`: return `1` at the first summary whose
`return_code` is non-zero, else fall through to `0`. -/
def exit_code_loop : List TestSummary → Nat
  | [] => 0
  | t :: ts => if t.return_code ≠ 0 then 1 else exit_code_loop ts

/-- Embedding of `_exit_code(tests_result)`: an empty (falsy) `apps` list gives `1`,
otherwise the loop above. -/
def _exit_code (tests_result : TestsResult) : Nat :=
  if tests_result.apps.isEmpty then 1 else exit_code_loop tests_result.apps

/- ------------------------------------------------------------------ -/
/- `_validate_results`.                                                -/
/- ------------------------------------------------------------------ -/

/-- Embedding of `_validate_results(FLAGS, test_summary)`.  A non-zero `return_code`
returns `False` at once.  For a game-loop run with a truthy validator flag
the source calls `imp.load_source` and returns the result of the loaded
module function `validate(test_summary)`; its `try` catches only `ImportError` (logging and
falling through to `return True`), so any other exception raised by the
load — for example the `FileNotFoundError` raised when the path does not
exist — propagates out of the function, which the model renders as
`Except.error`. -/
def _validate_results (load : String → LoadResult) (flags : Flags)
    (test_summary : TestSummary) : Except String Bool :=
  if test_summary.return_code ≠ 0 then Except.ok false
  else if flags.test_type = some GAMELOOP ∧ pyTruthy flags.validator = true then
    match load (flags.validator.getD "") with
    | LoadResult.ok f => Except.ok (f test_summary)
    | LoadResult.errImport => Except.ok true
    | LoadResult.errOther e => Except.error e
  else Except.ok true

/- ------------------------------------------------------------------ -/
/- `_ftl_run` (the per-artifact retry loop, run in its own thread).     -/
/- ------------------------------------------------------------------ -/

/-- The `while attempt_num <= FLAGS.max_attempts` loop of `_ftl_run`,
started at `attempt_num`.  `exec n` is the observable behaviour of the
external command at attempt `n`.  The loop appends one summary per attempt
to the shared `tests_result["apps"]` list; the first component collects, in
order, the summaries this call appends.  The second component is the
exception, if any, that `_validate_results` lets escape (it is raised
after the append, so the summary of that attempt is still recorded). -/
def ftl_run_loop (flags : Flags) (load : String → LoadResult)
    (exec : Nat → ExecResult) (ftl_cmd : String) (attempt_num : Nat) :
    List TestSummary × Option String :=
  if _h : (attempt_num : Int) ≤ flags.max_attempts then
    let result := exec attempt_num
    let test_summary :=
      _parse_test_summary flags ftl_cmd result.returncode attempt_num result.stdout
    match _validate_results load flags test_summary with
    | Except.ok true => ([test_summary], none)
    | Except.ok false =>
      let rest := ftl_run_loop flags load exec ftl_cmd (attempt_num + 1)
      (test_summary :: rest.1, rest.2)
    | Except.error e => ([test_summary], some e)
  else ([], none)
termination_by (flags.max_attempts + 1 - (attempt_num : Int)).toNat
decreasing_by
  simp only [Nat.cast_add, Nat.cast_one]
  omega

/-- Embedding of `_ftl_run(FLAGS, ftl_cmd, tests_result)`: the loop starts at attempt 1. -/
def _ftl_run (flags : Flags) (load : String → LoadResult)
    (exec : Nat → ExecResult) (ftl_cmd : String) : List TestSummary × Option String :=
  ftl_run_loop flags load exec ftl_cmd 1

/- ------------------------------------------------------------------ -/
/- Command builders.                                                   -/
/- ------------------------------------------------------------------ -/

/-- The device block of `_ftl_cmd_with_flags`: nothing when
`FLAGS.test_devices` is falsy; for selection `"random"` a single
`--device` with `random.choice` of the split list (the sampler is the
`choice` parameter); otherwise one `--device` per entry in order. -/
def deviceFlagsSection (choice : List String → String) (flags : Flags) : List String :=
  if pyTruthy flags.test_devices then
    let test_device_list := splitSemi (flags.test_devices.getD "")
    if flags.test_device_selection = "random" then ["--device", choice test_device_list]
    else test_device_list.flatMap (fun device => ["--device", device])
  else []

/-- The additional-flag block: `FLAGS.additional_flags.split()` appended
verbatim when the flag is truthy. -/
def additionalFlagsSection (flags : Flags) : List String :=
  if pyTruthy flags.additional_flags then pySplitWS (flags.additional_flags.getD "")
  else []

/-- Embedding of `_ftl_cmd_with_flags(FLAGS, testapp_path)`.  `extract` stands for
`_extract_instrumentation_test` (a filesystem operation, passed in).  The
first `if` chain picks the base command and raises `ValueError` on an
unrecognized test type; the second picks the artifact flags; then
`--type`/`--timeout`, the device block and the additional flags are
appended, and the result is `cmd + test_flags`.  The final `else` of the
second chain is unreachable: the source would hit an unbound
`test_flags` there, but the `ValueError` of the first chain fires first. -/
def _ftl_cmd_with_flags (choice : List String → String)
    (extract : String → Except String (String × String)) (flags : Flags)
    (testapp_path : String) : Except String (List String) :=
  let cmdE : Except String (List String) :=
    if flags.test_type = some XCTEST then Except.ok TEST_IOS_CMD
    else if flags.test_type = some ROBO ∨ flags.test_type = some INSTRUMENTATION then
      Except.ok TEST_ANDROID_CMD
    else if flags.test_type = some GAMELOOP then
      Except.ok (if (".ipa".toList).isSuffixOf testapp_path.toList then BETA_TEST_IOS_CMD
                 else TEST_ANDROID_CMD)
    else Except.error "ValueError: Invalid test_type"
  let testFlagsE : Except String (List String) :=
    if flags.test_type = some XCTEST then Except.ok ["--test", testapp_path]
    else if flags.test_type = some ROBO ∨ flags.test_type = some GAMELOOP then
      Except.ok ["--app", testapp_path]
    else if flags.test_type = some INSTRUMENTATION then
      match extract testapp_path with
      | Except.ok (app_path, test_path) => Except.ok ["--app", app_path, "--test", test_path]
      | Except.error e => Except.error e
    else Except.error "UnboundLocalError: test_flags"
  match cmdE, testFlagsE with
  | Except.ok cmd, Except.ok test_flags =>
    Except.ok (cmd ++ test_flags
      ++ ["--type", flags.test_type.getD "", "--timeout", flags.timeout]
      ++ deviceFlagsSection choice flags
      ++ additionalFlagsSection flags)
  | Except.error e, _ => Except.error e
  | _, Except.error e => Except.error e

/-- Embedding of `_ftl_cmd_with_arg_group(FLAGS, arg_group)`.  The source builds a
`test_flags` list containing `--type`, `--timeout`, the device flags and
the additional flags, but never appends it to `cmd`: the returned command
is only `TEST_ANDROID_CMD + [arg_group]`.  The unused list is kept here
(as `_test_flags`) to mirror the source. -/
def _ftl_cmd_with_arg_group (flags : Flags) (arg_group : String) : List String :=
  let cmd := TEST_ANDROID_CMD
  let _test_flags :=
    [arg_group, "--type", flags.test_type.getD "", "--timeout", flags.timeout]
      ++ (if pyTruthy flags.test_devices then
            (splitSemi (flags.test_devices.getD "")).flatMap (fun device => ["--device", device])
          else [])
      ++ additionalFlagsSection flags
  cmd ++ [arg_group]

/- ------------------------------------------------------------------ -/
/- `_extract_instrumentation_test`.                                    -/
/- ------------------------------------------------------------------ -/

/-- Name test of the loop: `file_name.endswith(".apk")`. -/
def isApk (p : String × String) : Bool :=
  (".apk".toList).isSuffixOf p.2.toList

/-- Python `str.lower()` on one character (ASCII range; the archive file
names in play are ASCII, where CPython lowers exactly the letters A-Z). -/
def pyCharLower (c : Char) : Char :=
  if 'A' ≤ c ∧ c ≤ 'Z' then Char.ofNat (c.toNat + 32) else c

/-- Python `str.lower()`. -/
def pyLowerList (cs : List Char) : List Char := cs.map pyCharLower

/-- Name test of the loop: `"test" in file_name.lower()`. -/
def isTestName (p : String × String) : Bool :=
  hasInfix (pyLowerList p.2.toList) ("test".toList)

/-- Body of the nested `os.walk` loop: an `.apk` whose lowercased name
contains `test` overwrites `test_path`, any other `.apk` overwrites
`app_path`, every other file is skipped.  State is
`(app_path?, test_path?)`, `none` standing for a still-unbound local. -/
def instStep (st : Option String × Option String) (p : String × String) :
    Option String × Option String :=
  if isApk p then
    if isTestName p then (st.1, some (joinPath p.1 p.2))
    else (some (joinPath p.1 p.2), st.2)
  else st

/-- Flatten an `os.walk` result (directory, file names) into the visited
(directory, file name) pairs in order. -/
def walkFiles (walk : List (String × List String)) : List (String × String) :=
  walk.flatMap (fun p => p.2.map (fun n => (p.1, n)))

/-- Embedding of `_extract_instrumentation_test(zip_path)` after the archive has been
extracted; `walk` is the `os.walk` of the output directory.  The source
returns `(app_path, test_path)`; if either local was never assigned Python
raises `UnboundLocalError`, modelled as `Except.error`. -/
def _extract_instrumentation_test (walk : List (String × List String)) :
    Except String (String × String) :=
  match (walkFiles walk).foldl instStep (none, none) with
  | (some app_path, some test_path) => Except.ok (app_path, test_path)
  | _ => Except.error "UnboundLocalError"

/- ------------------------------------------------------------------ -/
/- Concrete fixtures used in witnesses and counterexamples.            -/
/- ------------------------------------------------------------------ -/

/-- A flag set with every default of `parse_cmdline_args`, in discovery
mode with test type `xctest`. -/
def flagsBase : Flags :=
  { project_id := none
    arg_groups := none
    testapp_dir := some "testapps"
    test_type := some XCTEST
    test_devices := none
    test_device_selection := "all"
    timeout := "600s"
    additional_flags := none
    max_attempts := 1
    validator := none }

def flags3Attempts : Flags := { flagsBase with max_attempts := 3 }

def flags2Attempts : Flags := { flagsBase with max_attempts := 2 }

/-- Game-loop flags with a configured validator path. -/
def flagsGLV : Flags :=
  { flagsBase with test_type := some GAMELOOP, validator := some "validator.py" }

/-- A loader that always raises `ImportError`. -/
def loadImportFail : String → LoadResult := fun _ => LoadResult.errImport

/-- A loader that raises `FileNotFoundError` (script absent): not an
`ImportError`, hence not caught by the source. -/
def loadNotFound : String → LoadResult := fun _ => LoadResult.errOther "FileNotFoundError"

/-- The constantly-false validate hook. -/
def hookFalse : TestSummary → Bool := fun _ => false

/-- A loader that succeeds and yields `hookFalse`. -/
def loadOkFalse : String → LoadResult := fun _ => LoadResult.ok hookFalse

/-- An external command that always fails with exit code 1 and no output. -/
def execFail : Nat → ExecResult := fun _ => { returncode := 1, stdout := "" }

/-- An external command failing on attempt 1 and succeeding afterwards. -/
def execFailThenOk : Nat → ExecResult :=
  fun n => if n = 1 then { returncode := 1, stdout := "" } else { returncode := 0, stdout := "" }

/-- A summary of a clean attempt (exit code 0). -/
def summaryPass : TestSummary :=
  { attempt := 1, cmd := "cmd", return_code := 0, testapp_path := "", test_type := some GAMELOOP
    ftl_link := "", raw_result_link := "", devices := [] }

/-- A summary of a failed attempt (exit code 7). -/
def summaryFail : TestSummary := { summaryPass with return_code := 7 }

/- ------------------------------------------------------------------ -/
/- Small shared lemmas.                                                -/
/- ------------------------------------------------------------------ -/

theorem parse_attempt_eq (flags : Flags) (c : String) (rc : Int) (n : Nat) (log : String) :
    (_parse_test_summary flags c rc n log).attempt = n := rfl

theorem parse_return_code_eq (flags : Flags) (c : String) (rc : Int) (n : Nat) (log : String) :
    (_parse_test_summary flags c rc n log).return_code = rc := rfl

theorem validate_of_rc_ne_zero (load : String → LoadResult) (flags : Flags)
    (s : TestSummary) (h : s.return_code ≠ 0) :
    _validate_results load flags s = Except.ok false := by
  unfold _validate_results
  rw [if_pos h]

theorem exit_code_loop_zero_iff (l : List TestSummary) :
    exit_code_loop l = 0 ↔ ∀ t ∈ l, t.return_code = 0 := by
  induction l with
  | nil => simp [exit_code_loop]
  | cons t ts ih =>
    by_cases h : t.return_code = 0
    · simp [exit_code_loop, h, ih]
    · rw [exit_code_loop, if_pos h]
      constructor
      · intro h10; exact absurd h10 one_ne_zero
      · intro hall; exact absurd (hall t (List.mem_cons_self t ts)) h

theorem exit_code_loop_zero_or_one (l : List TestSummary) :
    exit_code_loop l = 0 ∨ exit_code_loop l = 1 := by
  induction l with
  | nil => left; rfl
  | cons t ts ih =>
    by_cases h : t.return_code = 0
    · simpa [exit_code_loop, h] using ih
    · right; rw [exit_code_loop, if_pos h]

/-- Claim C1: the final exit code is 0 exactly when the aggregate report
has a non-empty `apps` list all of whose records carry `return_code` 0;
an empty list or any non-zero `return_code` yields exit code 1. -/
theorem exit_code_spec (r : TestsResult) :
    (_exit_code r = 0 ↔ r.apps ≠ [] ∧ ∀ t ∈ r.apps, t.return_code = 0) ∧
    (_exit_code r = 1 ↔ r.apps = [] ∨ ∃ t ∈ r.apps, t.return_code ≠ 0) := by
  obtain ⟨pid, apps⟩ := r
  cases apps with
  | nil => simp [_exit_code]
  | cons a l =>
    have hne : a :: l ≠ [] := by simp
    constructor
    · rw [show _exit_code ⟨pid, a :: l⟩ = exit_code_loop (a :: l) from rfl]
      simp only [hne, ne_eq, not_false_eq_true, true_and]
      exact exit_code_loop_zero_iff (a :: l)
    · rw [show _exit_code ⟨pid, a :: l⟩ = exit_code_loop (a :: l) from rfl]
      constructor
      · intro h1
        right
        by_contra hno
        push_neg at hno
        have h0 : exit_code_loop (a :: l) = 0 :=
          (exit_code_loop_zero_iff (a :: l)).mpr (fun t ht => hno t ht)
        rw [h0] at h1
        exact absurd h1 zero_ne_one
      · intro h
        rcases h with h | ⟨t, ht, hrc⟩
        · exact absurd h hne
        · rcases exit_code_loop_zero_or_one (a :: l) with h0 | h1
          · have := (exit_code_loop_zero_iff (a :: l)).mp h0 t ht
            exact absurd this hrc
          · exact h1

/-- Claim C1 witness: a singleton passing report gives exit code 0 and an
empty report gives exit code 1. -/
theorem exit_code_spec_app :
    _exit_code { project_id := none, apps := [summaryPass] } = 0 ∧
    _exit_code { project_id := none, apps := [] } = 1 := by
  constructor
  · exact (exit_code_spec _).1.mpr ⟨by decide, by decide⟩
  · exact (exit_code_spec _).2.mpr (Or.inl rfl)

/-- Claim C2: with `max_attempts = 3` and an external command whose exit
code is non-zero on every attempt, the retry loop records exactly three
summaries for the artifact, carrying attempt numbers 1, 2, 3 in order. -/
theorem ftl_run_records_three_attempts (flags : Flags) (load : String → LoadResult)
    (exec : Nat → ExecResult) (ftl_cmd : String)
    (hmax : flags.max_attempts = 3)
    (hfail : ∀ n, (exec n).returncode ≠ 0) :
    ((_ftl_run flags load exec ftl_cmd).1).map (fun s => s.attempt) = [1, 2, 3] ∧
    ((_ftl_run flags load exec ftl_cmd).1).length = 3 := by
  have hv : ∀ n : Nat,
      _validate_results load flags
        (_parse_test_summary flags ftl_cmd (exec n).returncode n (exec n).stdout) =
      Except.ok false := fun n =>
    validate_of_rc_ne_zero load flags _ (hfail n)
  have h4 : ftl_run_loop flags load exec ftl_cmd 4 = ([], none) := by
    rw [ftl_run_loop, hmax, dif_neg (by norm_num)]
  have h3 : ftl_run_loop flags load exec ftl_cmd 3 =
      ([_parse_test_summary flags ftl_cmd (exec 3).returncode 3 (exec 3).stdout], none) := by
    rw [ftl_run_loop, hmax, dif_pos (by norm_num)]
    simp only [hv 3, h4]
  have h2 : ftl_run_loop flags load exec ftl_cmd 2 =
      ([_parse_test_summary flags ftl_cmd (exec 2).returncode 2 (exec 2).stdout,
        _parse_test_summary flags ftl_cmd (exec 3).returncode 3 (exec 3).stdout], none) := by
    rw [ftl_run_loop, hmax, dif_pos (by norm_num)]
    simp only [hv 2, h3]
  have h1 : ftl_run_loop flags load exec ftl_cmd 1 =
      ([_parse_test_summary flags ftl_cmd (exec 1).returncode 1 (exec 1).stdout,
        _parse_test_summary flags ftl_cmd (exec 2).returncode 2 (exec 2).stdout,
        _parse_test_summary flags ftl_cmd (exec 3).returncode 3 (exec 3).stdout], none) := by
    rw [ftl_run_loop, hmax, dif_pos (by norm_num)]
    simp only [hv 1, h2]
  unfold _ftl_run
  rw [h1]
  exact ⟨by simp [parse_attempt_eq], rfl⟩

/-- Claim C2 witness: the always-failing command with three attempts. -/
theorem ftl_run_records_three_attempts_app :
    ((_ftl_run flags3Attempts loadImportFail execFail "cmd").1).map (fun s => s.attempt)
      = [1, 2, 3] :=
  (ftl_run_records_three_attempts flags3Attempts loadImportFail execFail "cmd" rfl
    (fun _ => by norm_num [execFail])).1

/-- Claim C10: when the first attempt for an artifact exits non-zero and a
later attempt (within the budget) exits 0, the final exit code computed
over the aggregate report of the run is still 1: the failed first record stays in the
report and `_exit_code` requires every record to carry 0. -/
theorem retry_success_exit_code_one (flags : Flags) (load : String → LoadResult)
    (exec : Nat → ExecResult) (ftl_cmd : String) (pid : Option String) (k : Nat)
    (hbudget : (1 : Int) ≤ flags.max_attempts)
    (hfirst : (exec 1).returncode ≠ 0)
    (hk : 2 ≤ k) (hklt : (k : Int) ≤ flags.max_attempts)
    (hok : (exec k).returncode = 0) :
    _exit_code { project_id := pid, apps := (_ftl_run flags load exec ftl_cmd).1 } = 1 := by
  have hv1 : _validate_results load flags
      (_parse_test_summary flags ftl_cmd (exec 1).returncode 1 (exec 1).stdout) =
      Except.ok false :=
    validate_of_rc_ne_zero load flags _ hfirst
  have hsplit : (_ftl_run flags load exec ftl_cmd).1 =
      _parse_test_summary flags ftl_cmd (exec 1).returncode 1 (exec 1).stdout ::
        (ftl_run_loop flags load exec ftl_cmd 2).1 := by
    unfold _ftl_run
    rw [ftl_run_loop, dif_pos (by exact_mod_cast hbudget)]
    simp only [hv1]
  rw [hsplit]
  unfold _exit_code
  rw [if_neg (by simp)]
  rw [exit_code_loop]
  simp only [parse_return_code_eq]
  rw [if_pos hfirst]

/-- Claim C10 witness: two attempts, the first failing and the second
succeeding, still give exit code 1. -/
theorem retry_success_exit_code_one_app :
    _exit_code { project_id := none,
                 apps := (_ftl_run flags2Attempts loadImportFail execFailThenOk "cmd").1 } = 1 :=
  retry_success_exit_code_one flags2Attempts loadImportFail execFailThenOk "cmd" none 2
    (by norm_num [flags2Attempts, flagsBase])
    (by norm_num [execFailThenOk])
    (by norm_num)
    (by norm_num [flags2Attempts, flagsBase])
    (by norm_num [execFailThenOk])

/-- Claim C3: the result parser is a total function.  Its structural
fields always carry the given attempt number, command and return code;
each of the three text-scraped fields defaults to the empty string when
its marker is absent; and on the empty input every scraped field is empty
and the device-outcome list is empty.  (No failure path exists: the
embedding returns a plain `TestSummary`, mirroring a Python body made only
of non-raising `re` searches and string operations.) -/
theorem parse_test_summary_total (flags : Flags) (ftl_cmd : String) (rc : Int)
    (n : Nat) (text : String) :
    (_parse_test_summary flags ftl_cmd rc n text).attempt = n ∧
    (_parse_test_summary flags ftl_cmd rc n text).cmd = ftl_cmd ∧
    (_parse_test_summary flags ftl_cmd rc n text).return_code = rc ∧
    (_parse_test_summary flags ftl_cmd rc n text).test_type = flags.test_type ∧
    (reSearchGroup "Uploading [" "] to Firebase Test Lab" text = none →
      (_parse_test_summary flags ftl_cmd rc n text).testapp_path = "") ∧
    (reSearchGroup "Test results will be streamed to [" "]" text = none →
      (_parse_test_summary flags ftl_cmd rc n text).ftl_link = "") ∧
    (reSearchGroup "Raw results will be stored in your GCS bucket at [" "]" text = none →
      (_parse_test_summary flags ftl_cmd rc n text).raw_result_link = "") ∧
    (text = "" →
      (_parse_test_summary flags ftl_cmd rc n text).testapp_path = "" ∧
      (_parse_test_summary flags ftl_cmd rc n text).ftl_link = "" ∧
      (_parse_test_summary flags ftl_cmd rc n text).raw_result_link = "" ∧
      (_parse_test_summary flags ftl_cmd rc n text).devices = []) := by
  refine ⟨rfl, rfl, rfl, rfl, ?_, ?_, ?_, ?_⟩
  · intro h; simp only [_parse_test_summary, h]
  · intro h; simp only [_parse_test_summary, h]
  · intro h; simp only [_parse_test_summary, h]
  · intro h
    subst h
    exact ⟨rfl, rfl, rfl, rfl⟩

/-- Claim C3 witness: the parser applied to the empty string. -/
theorem parse_test_summary_total_app :
    (_parse_test_summary flagsBase "cmd" 0 1 "").devices = [] ∧
    (_parse_test_summary flagsBase "cmd" 0 1 "").testapp_path = "" := by
  have h := parse_test_summary_total flagsBase "cmd" 0 1 ""
  have h8 := h.2.2.2.2.2.2.2 rfl
  exact ⟨h8.2.2.2, h8.1⟩

/-- The box-table input of claim C4: a header row whose first cell is
`" OUTCOME "`, a newline, and one data row. -/
def boxTableInput : String :=
  "│ OUTCOME │ TEST_AXIS_VALUE │ TEST_DETAILS │\n│ Failed │ iphone13pro-15.2-en-portrait │ 1 test cases failed │"

/-- Claim C4: on the header-plus-data-row input the parser yields exactly
one device outcome, `{device_axis := "iphone13pro-15.2-en-portrait",
outcome := "Failed"}` — outcome is the trimmed first cell and device_axis
the trimmed second — and the header row contributes none. -/
theorem parse_box_table_single_outcome (flags : Flags) (ftl_cmd : String)
    (rc : Int) (n : Nat) :
    (_parse_test_summary flags ftl_cmd rc n boxTableInput).devices =
      [{ device_axis := "iphone13pro-15.2-en-portrait", outcome := "Failed" }] := rfl

/-- Claim C5: an attempt with non-zero exit code is never successful,
whatever the loader does; when the hook is not applicable (test type is
not game-loop, or no validator is configured) the verdict is the
exit-code-only one, again independent of the loader; and when the test
type is game-loop, a validator is configured and it loads, the boolean
answer of the hook is returned as the verdict. -/
theorem validate_results_gating (load : String → LoadResult) (flags : Flags)
    (s : TestSummary) (v : String) (f : TestSummary → Bool) :
    (s.return_code ≠ 0 → _validate_results load flags s = Except.ok false) ∧
    (s.return_code = 0 →
      (flags.test_type ≠ some GAMELOOP ∨ pyTruthy flags.validator = false) →
      _validate_results load flags s = Except.ok true) ∧
    (s.return_code = 0 → flags.test_type = some GAMELOOP →
      flags.validator = some v → pyTruthy flags.validator = true →
      load v = LoadResult.ok f →
      _validate_results load flags s = Except.ok (f s)) := by
  refine ⟨fun h => validate_of_rc_ne_zero load flags s h, ?_, ?_⟩
  · intro h0 hna
    unfold _validate_results
    rw [if_neg (by simp [h0])]
    rw [if_neg ?_]
    intro hc
    rcases hna with h | h
    · exact h hc.1
    · rw [hc.2] at h; exact absurd h (by simp)
  · intro h0 ht hv hvt hload
    unfold _validate_results
    rw [if_neg (by simp [h0])]
    rw [if_pos ⟨ht, hvt⟩]
    rw [hv]
    simp only [Option.getD_some]
    rw [hload]

/-- Claim C5 witness: a failed attempt is rejected even with a loaded
hook; a clean non-game-loop attempt passes without consulting the loader;
and a clean game-loop attempt with a loaded constantly-false hook is
rejected by the answer of the hook. -/
theorem validate_results_gating_app :
    _validate_results loadOkFalse flagsBase summaryFail = Except.ok false ∧
    _validate_results loadNotFound flagsBase summaryPass = Except.ok true ∧
    _validate_results loadOkFalse flagsGLV summaryPass = Except.ok false := by
  refine ⟨(validate_results_gating loadOkFalse flagsBase summaryFail "v" hookFalse).1
      (by norm_num [summaryFail, summaryPass]),
    (validate_results_gating loadNotFound flagsBase summaryPass "v" hookFalse).2.1 rfl
      (Or.inl (by simp [flagsBase, XCTEST, GAMELOOP])),
    ?_⟩
  exact (validate_results_gating loadOkFalse flagsGLV summaryPass "validator.py" hookFalse).2.2
    rfl rfl rfl (by simp [flagsGLV, pyTruthy]) rfl

/-- Claim C6 counterexample: a game-loop run with a configured validator
whose script is missing raises `FileNotFoundError` out of the validation
step (the source catches only `ImportError`), instead of falling back to
the exit-code-only verdict claimed. -/
theorem validate_results_notfound_cex :
    _validate_results loadNotFound flagsGLV summaryPass = Except.error "FileNotFoundError" ∧
    _validate_results loadNotFound flagsGLV summaryPass ≠ Except.ok true := by
  constructor
  · rfl
  · intro h
    rw [show _validate_results loadNotFound flagsGLV summaryPass
        = Except.error "FileNotFoundError" from rfl] at h
    exact Except.noConfusion h

/-- Claim C6 amended: the fallback happens exactly for a load failure that
raises `ImportError` — then the failure is logged and the clean attempt is
treated as successful; any other load exception (such as the
`FileNotFoundError` of a missing script) propagates out of the run. -/
theorem validate_results_import_fallback (load : String → LoadResult) (flags : Flags)
    (s : TestSummary) (v : String)
    (h0 : s.return_code = 0) (ht : flags.test_type = some GAMELOOP)
    (hv : flags.validator = some v) (hvt : pyTruthy flags.validator = true)
    (hload : load v = LoadResult.errImport) :
    _validate_results load flags s = Except.ok true := by
  unfold _validate_results
  rw [if_neg (by simp [h0])]
  rw [if_pos ⟨ht, hvt⟩]
  rw [hv]
  simp only [Option.getD_some]
  rw [hload]

/-- Claim C6 amended witness: the `ImportError` loader on a clean
game-loop attempt. -/
theorem validate_results_import_fallback_app :
    _validate_results loadImportFail flagsGLV summaryPass = Except.ok true :=
  validate_results_import_fallback loadImportFail flagsGLV summaryPass "validator.py"
    rfl rfl rfl (by simp [flagsGLV, pyTruthy]) rfl

/- ------------------------------------------------------------------ -/
/- Device-flag claims.                                                 -/
/- ------------------------------------------------------------------ -/

/-- Sampler `random.choice` modelled as taking the head of the (never empty)
device list. -/
def choiceHead : List String → String := fun l => l.headD ""

/-- An extraction oracle that is never consulted in flag mode for
non-instrumentation test types. -/
def extractNone : String → Except String (String × String) :=
  fun _ => Except.error "unused"

/-- Read off the command list of a successful build (empty on error). -/
def builtList : Except String (List String) → List String
  | Except.ok l => l
  | Except.error _ => []

theorem splitOnCharAux_ne_nil (sep : Char) :
    ∀ (l acc : List Char), splitOnCharAux sep l acc ≠ [] := by
  intro l
  induction l with
  | nil => intro acc; simp [splitOnCharAux]
  | cons c cs ih =>
    intro acc
    by_cases h : c = sep
    · simp [splitOnCharAux, h]
    · simpa [splitOnCharAux, h] using ih (c :: acc)

theorem choiceHead_mem : ∀ l : List String, l ≠ [] → choiceHead l ∈ l := by
  intro l hl
  cases l with
  | nil => exact absurd rfl hl
  | cons a t => simp [choiceHead]

/-- Flags exhibiting the counterexample to claim C7: selection `random`, a
three-entry device list, and raw additional flags that smuggle in a second
`--device` token. -/
def flagsDevCE : Flags :=
  { flagsBase with
      test_devices := some "model=a,version=1;model=b,version=2;model=c,version=3"
      test_device_selection := "random"
      additional_flags := some "--device model=x,version=9" }

/-- Claim C7 counterexample: with policy `random` and a 3-element device
list the built command carries two `--device` flags, not exactly one,
because the `additional_flags` escape hatch is appended verbatim after the
device block. -/
theorem device_random_additional_cex :
    flagsDevCE.test_device_selection = "random" ∧
    (splitSemi (flagsDevCE.test_devices.getD "")).length = 3 ∧
    (builtList (_ftl_cmd_with_flags choiceHead extractNone flagsDevCE "app.zip")).count
      "--device" = 2 := by
  refine ⟨rfl, by decide, by decide⟩

/-- Claim C7 amended: the device-selection block itself emits exactly
`["--device", e]` with `e` an element of the split list under policy
`random`, one `--device` per entry in order under any other (i.e. `all`)
policy, and nothing when no device list is configured; every successfully
built command is a prefix followed by exactly this block and then the raw
`additional_flags` tokens, which are appended verbatim and may themselves
contain further `--device` tokens. -/
theorem device_flags_policy (choice : List String → String) (flags : Flags)
    (hpick : ∀ l : List String, l ≠ [] → choice l ∈ l) :
    (pyTruthy flags.test_devices = true → flags.test_device_selection = "random" →
      deviceFlagsSection choice flags =
        ["--device", choice (splitSemi (flags.test_devices.getD ""))] ∧
      choice (splitSemi (flags.test_devices.getD "")) ∈
        splitSemi (flags.test_devices.getD "")) ∧
    (pyTruthy flags.test_devices = true → flags.test_device_selection ≠ "random" →
      deviceFlagsSection choice flags =
        (splitSemi (flags.test_devices.getD "")).flatMap (fun device => ["--device", device])) ∧
    (pyTruthy flags.test_devices = false → deviceFlagsSection choice flags = []) ∧
    (∀ extract path c, _ftl_cmd_with_flags choice extract flags path = Except.ok c →
      ∃ pre, c = pre ++ deviceFlagsSection choice flags ++ additionalFlagsSection flags) := by
  refine ⟨?_, ?_, ?_, ?_⟩
  · intro htr hsel
    constructor
    · simp [deviceFlagsSection, htr, hsel]
    · exact hpick _ (splitOnCharAux_ne_nil ';' _ [])
  · intro htr hsel
    simp [deviceFlagsSection, htr, hsel]
  · intro hfa
    simp [deviceFlagsSection, hfa]
  · intro extract path c h
    simp only [_ftl_cmd_with_flags] at h
    split at h
    · rename_i cmd test_flags heq1 heq2
      refine ⟨cmd ++ test_flags ++ ["--type", flags.test_type.getD "", "--timeout", flags.timeout], ?_⟩
      have hc := (Except.ok.injEq _ _).mp h
      rw [← hc]
    · simp at h
    · simp at h

/-- Claim C7 amended witness: head-sampling `random` selection over a
three-entry list emits the single flag pair for the first entry. -/
theorem device_flags_policy_app :
    deviceFlagsSection choiceHead
      { flagsBase with test_devices := some "m1;m2;m3", test_device_selection := "random" } =
      ["--device", "m1"] := by
  have h := (device_flags_policy choiceHead
    { flagsBase with test_devices := some "m1;m2;m3", test_device_selection := "random" }
    choiceHead_mem).1 (by decide) rfl
  exact h.1

/- ------------------------------------------------------------------ -/
/- Raw-argument-group mode.                                            -/
/- ------------------------------------------------------------------ -/

/-- Flags for raw-argument-group mode. -/
def flagsAG : Flags :=
  { flagsBase with
      arg_groups := some "arg_group1.yaml"
      testapp_dir := none
      test_type := some ROBO }

/-- Claim C8, evaluated: in per-artifact flag mode the built command does
contain `--type` and `--timeout`, but in raw-argument-group mode the
returned command is only the base android command plus the argument group
— the source builds its `test_flags` list (which has both flags) and then
never appends it to `cmd`, so neither flag appears. -/
theorem arg_group_cmd_missing_type_timeout :
    _ftl_cmd_with_arg_group flagsAG "arg_group1.yaml" =
      ["gcloud", "firebase", "test", "android", "run", "arg_group1.yaml"] ∧
    "--type" ∉ _ftl_cmd_with_arg_group flagsAG "arg_group1.yaml" ∧
    "--timeout" ∉ _ftl_cmd_with_arg_group flagsAG "arg_group1.yaml" ∧
    "--type" ∈ builtList (_ftl_cmd_with_flags choiceHead extractNone flagsAG "app.apk") ∧
    "--timeout" ∈ builtList (_ftl_cmd_with_flags choiceHead extractNone flagsAG "app.apk") := by
  exact ⟨rfl, by decide, by decide, by decide, by decide⟩

/- ------------------------------------------------------------------ -/
/- Instrumentation archive resolution.                                 -/
/- ------------------------------------------------------------------ -/

/-- The history-free content of the loop state: the full path of the last
assignment so far, seeded with the incoming value. -/
def lastApp : List (String × String) → Option String → Option String
  | [], d => d
  | p :: xs, _ => lastApp xs (some (joinPath p.1 p.2))

theorem lastApp_seeded_ne_none :
    ∀ (l : List (String × String)) (s : String), lastApp l (some s) ≠ none := by
  intro l
  induction l with
  | nil => intro s; simp [lastApp]
  | cons p xs ih => intro s; simpa [lastApp] using ih (joinPath p.1 p.2)

theorem lastApp_none_iff (l : List (String × String)) :
    lastApp l none = none ↔ l = [] := by
  cases l with
  | nil => simp [lastApp]
  | cons p xs =>
    simp only [lastApp]
    constructor
    · intro h; exact absurd h (lastApp_seeded_ne_none xs (joinPath p.1 p.2))
    · intro h; exact absurd h (by simp)

theorem lastApp_of_getLast? :
    ∀ (l : List (String × String)) (pa : String × String) (d : Option String),
      l.getLast? = some pa → lastApp l d = some (joinPath pa.1 pa.2) := by
  intro l
  induction l with
  | nil => intro pa d h; exact absurd h (by simp)
  | cons p xs ih =>
    intro pa d h
    cases xs with
    | nil =>
      simp only [List.getLast?_singleton, Option.some.injEq] at h
      rw [← h]
      rfl
    | cons q ys =>
      rw [List.getLast?_cons_cons] at h
      exact ih pa (some (joinPath p.1 p.2)) h

/-- The `os.walk` loop of `_extract_instrumentation_test`, characterized:
after folding, the app slot holds the last non-test `.apk` seen (or the
seed) and the test slot the last test `.apk` seen (or the seed). -/
theorem foldl_instStep_eq :
    ∀ (l : List (String × String)) (st : Option String × Option String),
      l.foldl instStep st =
        (lastApp (l.filter (fun p => isApk p && !isTestName p)) st.1,
         lastApp (l.filter (fun p => isApk p && isTestName p)) st.2) := by
  intro l
  induction l with
  | nil => intro st; rfl
  | cons p xs ih =>
    intro st
    rw [List.foldl_cons, ih (instStep st p)]
    by_cases ha : isApk p
    · by_cases ht : isTestName p
      · simp [instStep, ha, ht, List.filter_cons, lastApp]
      · simp [instStep, ha, ht, List.filter_cons, lastApp]
    · simp [instStep, ha, List.filter_cons]

/-- A walk with three `.apk` files, exactly one of which lacks `test` in
its name. -/
def walkThreeApks : List (String × List String) :=
  [("out", ["app.apk", "app-test1.apk", "app-test2.apk"])]

/-- Claim C9 counterexample: an archive with three matching `.apk` files
does not fail — the loop simply keeps the last test-named and last
non-test-named paths, so resolution succeeds, contradicting the claimed
error on more than two matches. -/
theorem extract_three_apks_cex :
    ((walkFiles walkThreeApks).filter isApk).length = 3 ∧
    _extract_instrumentation_test walkThreeApks =
      Except.ok ("out/app.apk", "out/app-test2.apk") := by
  exact ⟨by decide, by rfl⟩

/-- Claim C9 amended: resolution fails (with the Python unbound-local error)
exactly when no `.apk` in the walk lacks `test` in its lowercased name or
no `.apk` contains it — regardless of how many `.apk` files there are; in
every other case it returns the pair (last non-test `.apk`, last test
`.apk`) in walk order. -/
theorem extract_instrumentation_spec (walk : List (String × List String)) :
    (_extract_instrumentation_test walk = Except.error "UnboundLocalError" ↔
      (walkFiles walk).filter (fun p => isApk p && !isTestName p) = [] ∨
      (walkFiles walk).filter (fun p => isApk p && isTestName p) = []) ∧
    (∀ pa pt : String × String,
      ((walkFiles walk).filter (fun p => isApk p && !isTestName p)).getLast? = some pa →
      ((walkFiles walk).filter (fun p => isApk p && isTestName p)).getLast? = some pt →
      _extract_instrumentation_test walk =
        Except.ok (joinPath pa.1 pa.2, joinPath pt.1 pt.2)) := by
  have hmain : _extract_instrumentation_test walk =
      (match (lastApp ((walkFiles walk).filter (fun p => isApk p && !isTestName p)) none,
              lastApp ((walkFiles walk).filter (fun p => isApk p && isTestName p)) none) with
       | (some a, some t) => Except.ok (a, t)
       | _ => Except.error "UnboundLocalError") := by
    unfold _extract_instrumentation_test
    rw [foldl_instStep_eq (walkFiles walk) (none, none)]
  have hcase : ∀ A T : Option String,
      (match (A, T) with
       | (some a, some t) => Except.ok (a, t)
       | _ => (Except.error "UnboundLocalError" : Except String (String × String))) =
        Except.error "UnboundLocalError" ↔ A = none ∨ T = none := by
    intro A T
    rcases A with _ | a <;> rcases T with _ | t <;> simp
  constructor
  · rw [hmain, hcase, lastApp_none_iff, lastApp_none_iff]
  · intro pa pt hpa hpt
    rw [hmain, lastApp_of_getLast? _ pa none hpa, lastApp_of_getLast? _ pt none hpt]

/-- Claim C9 amended witness: a two-`.apk` archive resolves to the
non-test file as the app and the test-named file as the test. -/
theorem extract_instrumentation_spec_app :
    _extract_instrumentation_test [("out", ["app.apk", "app-test.apk"])] =
      Except.ok ("out/app.apk", "out/app-test.apk") :=
  (extract_instrumentation_spec [("out", ["app.apk", "app-test.apk"])]).2
    ("out", "app.apk") ("out", "app-test.apk") (by rfl) (by rfl)
